import Mathlib

/-! Verification of the yaverapp authentication backend

Shallow embedding of the Express/TypeORM backend: user entity, the two
user-repository implementations, the auth service (bcrypt + JWT), the auth
middleware, and the HTTP route handlers, together with theorems settling the
specification claims.
-/

set_option maxRecDepth 4096

namespace Yaver

/-- JSON values as produced by the route handlers via `res.json(...)`.
Only the shapes the handlers emit are needed: strings, arrays, objects. -/
inductive Json where
  | str (s : String)
  | arr (xs : List Json)
  | obj (fields : List (String × Json))
deriving Repr

mutual

/-- Whether a JSON value contains a field named `k` at any nesting depth. -/
def Json.hasKey : Json → String → Bool
  | .str _, _ => false
  | .arr xs, k => Json.listHasKey xs k
  | .obj fs, k => Json.fieldsHaveKey fs k

/-- Whether any element of a JSON array contains a field named `k`. -/
def Json.listHasKey : List Json → String → Bool
  | [], _ => false
  | x :: xs, k => Json.hasKey x k || Json.listHasKey xs k

/-- Whether a field list has a field named `k`, at top level or nested. -/
def Json.fieldsHaveKey : List (String × Json) → String → Bool
  | [], _ => false
  | (k', v) :: fs, k => k' == k || Json.hasKey v k || Json.fieldsHaveKey fs k

end

/-- The value stored in the `password` column of the `user` table.

The column holds a string: either a bcrypt digest written by
`AuthService.register` (`bcrypt.hash(plaintext, 10)`), or a raw string
persisted verbatim by `UserRepository.create` when a caller never hashed it.
We model the column algebraically, keeping the two provenances distinct,
which idealises bcrypt's contract: a digest embeds its salt, verification
recomputes with the embedded salt, and a raw string of this system is never
itself a well-formed digest of itself (bcrypt digests are `$2b$...`-formatted
outputs of a one-way function). -/
inductive StoredPw where
  | raw (p : String)
  | digest (salt : Nat) (p : String)
deriving Repr, DecidableEq

/-- Model of `bcrypt.hash(plaintext, 10)`: a salted one-way digest that
stores its own salt with the output. -/
def bhash (plaintext : String) (salt : Nat) : StoredPw :=
  .digest salt plaintext

/-- Model of `bcrypt.compare(plaintext, stored)`: recomputes the digest with
the embedded salt and compares; resolves `false` (never throws) when the
stored string is not a well-formed bcrypt digest. -/
def bcompare (plaintext : String) (stored : StoredPw) : Bool :=
  match stored with
  | .digest _ q => plaintext == q
  | .raw _ => false

/-- The string content of the password column as the database returns it
(a digest renders as its `$2b$...` form, a raw value renders verbatim). -/
def StoredPw.render : StoredPw → String
  | .raw p => p
  | .digest salt p => "$2b$10$" ++ toString salt ++ "$" ++ p

/-- The `User` entity (`entities/User.ts`): id, unique username, unique
email, and a password column marked `select: false`. The `createdAt` and
`updatedAt` timestamp columns and the `dataPoints` relation play no role in
any claim and are omitted. -/
structure User where
  id : String
  username : String
  email : String
  password : StoredPw
deriving Repr, DecidableEq

/-- A user record as returned by reads that exclude the password column
(`select: false` on the entity): no password field is present at all. -/
structure PublicUser where
  id : String
  username : String
  email : String
deriving Repr, DecidableEq

/-- Dropping the unselected password column from a row. -/
def User.toPublic (u : User) : PublicUser :=
  ⟨u.id, u.username, u.email⟩

/-- JSON serialization of a password-free user record. -/
def PublicUser.toJson (u : PublicUser) : Json :=
  .obj [("id", .str u.id), ("username", .str u.username), ("email", .str u.email)]

/-- JSON serialization of a full user row, password column included — the
shape `res.json(user)` produces when the entity still carries its password. -/
def User.toJsonFull (u : User) : Json :=
  .obj [("id", .str u.id), ("username", .str u.username), ("email", .str u.email),
        ("password", .str u.password.render)]

/-- The user table, in insertion order. -/
abbrev Db := List User

/-- Embedding of `UserRepository.findById` (both `repositories/UserRepository.ts` and the
near-duplicate `repositories/user.repository.ts` have the same body):
`findOne({ where: { id } })`; the password column is excluded by
`select: false`. -/
def findById (db : Db) (id : String) : Option PublicUser :=
  (db.find? (fun u => u.id == id)).map User.toPublic

/-- Embedding of `findById` of the duplicate repository `user.repository.ts`
(lines 103-105 of that file): the identical query. -/
def findByIdDup (db : Db) (id : String) : Option PublicUser :=
  (db.find? (fun u => u.id == id)).map User.toPublic

/-- Embedding of `UserRepository.findByEmail`: `findOne` with an explicit `select` list
that includes the password column, so the full row is returned. -/
def findByEmail (db : Db) (email : String) : Option User :=
  db.find? (fun u => u.email == email)

/-- Embedding of `UserRepository.findAll`: `find()`; the password column is excluded by
`select: false`. -/
def findAll (db : Db) : List PublicUser :=
  db.map User.toPublic

/-- Input record for user creation: the `{username, email, password}` fields
that both `AuthService.register` and `POST /api/users` consume. -/
structure CreateBody where
  username : String
  email : String
  password : String
deriving Repr, DecidableEq

/-- Whether inserting `b` violates the unique constraints on `username` or
`email` declared on the entity. -/
def violatesUnique (db : Db) (b : CreateBody) : Bool :=
  db.any (fun u => u.username == b.username || u.email == b.email)

/-- Embedding of `UserRepository.create`: `repository.create(userData)` then `save`.
The password value is persisted exactly as supplied (no hashing happens in
the repository); a unique-constraint violation rejects (the ORM throws). -/
def repoCreate (db : Db) (b : CreateBody) (pw : StoredPw) (freshId : String) :
    Except String (Db × User) :=
  if violatesUnique db b then
    .error "duplicate key value violates unique constraint"
  else
    let u : User := ⟨freshId, b.username, b.email, pw⟩
    .ok (db ++ [u], u)

/-! Section: Token issuer / verifier (`jsonwebtoken`) and the auth middleware -/

/-- A signed token: the payload `{ id: userId }` written by
`jwt.sign({ id: userId }, secret, { expiresIn: '24h' })`, the expiry instant
it fixes, and the signature. The external library's string encoding of this
structure is bijective, so token strings are modelled by the structures they
encode. -/
structure Token where
  sub : String
  exp : Nat
  sig : String
deriving Repr, DecidableEq

/-- Model of the HMAC the library computes over the payload with the
server-held symmetric secret (idealised as collision-free by construction:
distinct inputs give distinct tag strings). -/
def mac (secret sub : String) (exp : Nat) : String :=
  "hmac(" ++ secret ++ "," ++ sub ++ "," ++ toString exp ++ ")"

/-- Embedding of `AuthService.generateToken` / `jwt.sign`: issue a token for `userId`,
valid for 24 hours (86400 seconds) from `now`. -/
def jwtSign (secret userId : String) (now : Nat) : Token :=
  ⟨userId, now + 86400, mac secret userId (now + 86400)⟩

/-- Embedding of `jwt.verify(token, secret)` at time `now`: check the signature against
the secret and the expiry; return the decoded subject or nothing. -/
def jwtVerify (secret : String) (now : Nat) (t : Token) : Option String :=
  if t.sig == mac secret t.sub t.exp && now < t.exp then some t.sub else none

/-- Opaque rendering of a token for `res.json({ user, token })`. -/
def Token.render (t : Token) : String :=
  t.sub ++ "|" ++ toString t.exp ++ "|" ++ t.sig

/-- The `Authorization` header of a request, classified by what the
middleware's extraction (`req.header('Authorization')?.replace('Bearer ', '')`)
and the external JWT codec make of it: no header (or one that strips to the
empty string, which the middleware's `if (!token)` treats the same way), a
non-empty string that decodes as no token, or the encoding of a token. -/
inductive Header where
  | absent
  | malformed (raw : String)
  | token (t : Token)
deriving Repr, DecidableEq

/-- Status and JSON body of an HTTP response. -/
abbrev Resp := Nat × Json

/-- The 401 body the auth middleware sends on every failure path. -/
def pleaseAuthJson : Json := .obj [("error", .str "Please authenticate")]

/-- The `auth` middleware (`middleware/auth.middleware.ts`): extract the
bearer token; if absent throw (caught: 401), else `jwt.verify` with
`process.env.JWT_SECRET || 'your-secret-key'`; on failure 401, on success
yield the decoded `{ id }` attached to the request. -/
def auth (secret : String) (now : Nat) (h : Header) : Except Resp String :=
  match h with
  | .absent => .error (401, pleaseAuthJson)
  | .malformed _ => .error (401, pleaseAuthJson)
  | .token t =>
    match jwtVerify secret now t with
    | none => .error (401, pleaseAuthJson)
    | some uid => .ok uid

/-- A route guarded by the `auth` middleware: the handler runs only when the
middleware calls `next()`, with the decoded user id attached to the request. -/
def protectedRoute (secret : String) (now : Nat) (h : Header)
    (handler : String → Resp) : Resp :=
  match auth secret now h with
  | .error r => r
  | .ok uid => handler uid

/-! Section: Environment validation and the effective signing secret -/

/-- The environment variables `env.validation.ts` inspects. `none` models an
undefined variable; `some s` a defined one (possibly the empty string). -/
structure Env where
  nodeEnv : Option String
  port : Option String
  jwtSecret : Option String
  dbHost : Option String
  dbPort : Option String
  dbUsername : Option String
  dbPassword : Option String
  dbName : Option String
deriving Repr, DecidableEq

/-- envalid's `port()` validator: an undefined variable takes the spec's
default; a defined one must parse as a port number. -/
def portOk (v : Option String) : Bool :=
  match v with
  | none => true
  | some s => match s.toNat? with
    | some n => 0 < n && n ≤ 65535
    | none => false

/-- Embedding of `validateEnv` (`env.validation.ts`, via envalid's `cleanEnv`): a spec
without a default fails when the variable is undefined; a defined value —
including the empty string — is passed to the validator, and `str()` accepts
any string. `NODE_ENV` must be one of the three listed choices. `cleanEnv`
reports and exits the process on any failure, and the call sits at module
load of `error.middleware.ts`, which `app.ts` imports before serving. -/
def validateEnvOk (e : Env) : Bool :=
  (match e.nodeEnv with
   | some v => v == "development" || v == "test" || v == "production"
   | none => false)
  && portOk e.port
  && e.jwtSecret.isSome
  && portOk e.dbPort
  && e.dbUsername.isSome
  && e.dbPassword.isSome
  && e.dbName.isSome

/-- The secret `process.env.JWT_SECRET || 'your-secret-key'` evaluates to:
JavaScript `||` falls back when the variable is undefined or the empty
string (both falsy). This expression appears in `AuthService.generateToken`
and in the `auth` middleware. -/
def effectiveSecret (e : Env) : String :=
  match e.jwtSecret with
  | none => "your-secret-key"
  | some s => if s == "" then "your-secret-key" else s

/-- The signing/verification secret used by executions that get past
startup: `none` when startup validation fails (the process exits before any
token is signed or verified). -/
def appSecret (e : Env) : Option String :=
  if validateEnvOk e then some (effectiveSecret e) else none

/-! Section: Auth service (`services/auth.service.ts`) -/

/-- Embedding of `AuthService.register`: hash the password with bcrypt, persist via the
user repository, strip the password from the returned row, and issue a token
for the new user's id. A store rejection (unique-constraint violation)
propagates to the caller. `salt` is bcrypt's fresh salt, `freshId` the
generated uuid, `now` the issuing instant. -/
def AuthService.register (secret : String) (now salt : Nat) (freshId : String)
    (db : Db) (b : CreateBody) : Except String (Db × PublicUser × Token) :=
  match repoCreate db b (bhash b.password salt) freshId with
  | .error m => .error m
  | .ok (db', u) => .ok (db', u.toPublic, jwtSign secret u.id now)

/-- Embedding of `AuthService.login`: look up by email (the one read that selects the
password column); throw `Invalid login credentials` when no user exists or
when `bcrypt.compare` rejects; otherwise strip the password and issue a
token. -/
def AuthService.login (secret : String) (now : Nat) (db : Db)
    (email pw : String) : Except String (PublicUser × Token) :=
  match findByEmail db email with
  | none => .error "Invalid login credentials"
  | some u =>
    if bcompare pw u.password then
      .ok (u.toPublic, jwtSign secret u.id now)
    else
      .error "Invalid login credentials"

/-! Section: Route-layer validation (`express-validator`) -/

/-- Model of validator.js's `isEmail`, as called by `body('email').isEmail()`.
The library's grammar is intricate; the claims depend only on some inputs
passing and some failing, so the model keeps the coarse shape: one `@` with
non-empty local part and a dot-separated domain. -/
def isEmail (s : String) : Bool :=
  let cs := s.data
  let localPart := cs.takeWhile (fun c => c ≠ '@')
  match cs.dropWhile (fun c => c ≠ '@') with
  | '@' :: domain =>
    localPart ≠ [] && domain.contains '.' && !domain.contains '@' &&
      domain.head? ≠ some '.' && domain.getLast? ≠ some '.'
  | _ => false

/-- One entry of `errors.array()`: express-validator's field-error shape. -/
def fieldErrorJson (path : String) : Json :=
  .obj [("type", .str "field"), ("value", .str ""), ("msg", .str "Invalid value"),
        ("path", .str path), ("location", .str "body")]

/-- The failed validators of `POST /api/auth/register`'s chain:
`body('username').isString().notEmpty()`, `body('email').isEmail()`,
`body('password').isLength({ min: 6 })`. The body's fields are modelled as
present strings, so `isString` always passes; `isLength` counts code
points. -/
def registerValidationErrors (b : CreateBody) : List String :=
  (if b.username == "" then ["username"] else [])
  ++ (if isEmail b.email then [] else ["email"])
  ++ (if b.password.length < 6 then ["password"] else [])

/-- The failed validators of `POST /api/auth/token`'s chain:
`body('email').isEmail()`, `body('password').exists()` (a present string
field always satisfies `exists`). -/
def tokenValidationErrors (email : String) : List String :=
  if isEmail email then [] else ["email"]

/-- Body shape of `res.status(400).json` with the structured error list. -/
def errorsBody (paths : List String) : Json :=
  .obj [("errors", .arr (paths.map fieldErrorJson))]

/-- Body shape of an error response. -/
def errorBody (msg : String) : Json :=
  .obj [("error", .str msg)]

/-! Section: Route handlers (`routes/auth.routes.ts`, `routes/user.routes.ts`) -/

/-- Embedding of `POST /api/auth/register`: run the validator chain (400 with the
structured error list on failure, service never called); otherwise
`authService.register` — 201 `{user, token}` on success, 400 `{error}` when
the service throws. Returns the user table after the request with the
response. -/
def registerRoute (secret : String) (now salt : Nat) (freshId : String)
    (db : Db) (b : CreateBody) : Db × Resp :=
  let errs := registerValidationErrors b
  if errs ≠ [] then
    (db, (400, errorsBody errs))
  else
    match AuthService.register secret now salt freshId db b with
    | .error m => (db, (400, errorBody m))
    | .ok (db', u, t) =>
      (db', (201, .obj [("user", u.toJson), ("token", .str t.render)]))

/-- Embedding of `POST /api/auth/token`: validate (400 `{errors}` on malformed email);
then `authService.login` — 200 `{user, token}` on success, 401 `{error}`
when the service throws. -/
def tokenRoute (secret : String) (now : Nat) (db : Db)
    (email pw : String) : Resp :=
  let errs := tokenValidationErrors email
  if errs ≠ [] then
    (400, errorsBody errs)
  else
    match AuthService.login secret now db email pw with
    | .error m => (401, errorBody m)
    | .ok (u, t) => (200, .obj [("user", u.toJson), ("token", .str t.render)])

/-- Outcome of an awaited repository call inside a try/catch: the promise
resolves with a row or with nothing, or rejects with an error. -/
inductive StoreOutcome where
  | ok (u : Option PublicUser)
  | err (msg : String)
deriving Repr, DecidableEq

/-- The handler body of the protected `GET /api/auth/login`
(`auth.routes.ts` lines 70-81), as a function of the outcome of
`userRepository.findById(req.user.id)`: 404 when no row, otherwise destructure
the password away and send the row; a rejection is caught with **500**. -/
def authLoginHandler (o : StoreOutcome) : Resp :=
  match o with
  | .err m => (500, errorBody m)
  | .ok none => (404, errorBody "User not found")
  | .ok (some u) => (200, u.toJson)

/-- The handler body of the protected `GET /api/users/login`
(`user.routes.ts` lines 91-103), as a function of the outcome of
`userRepository.findById(req.user?.id)`: 404 when no row, otherwise
destructure the password away and send the row; a rejection is caught with
**400**. -/
def usersLoginHandler (o : StoreOutcome) : Resp :=
  match o with
  | .err m => (400, errorBody m)
  | .ok none => (404, errorBody "User not found")
  | .ok (some u) => (200, u.toJson)

/-- The full `GET /api/auth/login` route: auth middleware, then the handler
on the (resolving) store's answer for the decoded id, via the duplicate
repository `user.repository.ts`. -/
def authLoginRoute (secret : String) (now : Nat) (h : Header) (db : Db) : Resp :=
  protectedRoute secret now h (fun uid => authLoginHandler (.ok (findByIdDup db uid)))

/-- The full `GET /api/users/login` route: auth middleware, then the handler
on the (resolving) store's answer for the decoded id, via
`repositories/UserRepository.ts`. -/
def usersLoginRoute (secret : String) (now : Nat) (h : Header) (db : Db) : Resp :=
  protectedRoute secret now h (fun uid => usersLoginHandler (.ok (findById db uid)))

/-- Embedding of `POST /api/users` (`user.routes.ts` lines 105-112): no validation, no
hashing — `userRepository.create(req.body)` and 201 with the saved entity as
`res.json(user)` sends it (password column included); a store rejection is
caught with 400. -/
def createUserRoute (db : Db) (b : CreateBody) (freshId : String) : Db × Resp :=
  match repoCreate db b (.raw b.password) freshId with
  | .error m => (db, (400, errorBody m))
  | .ok (db', u) => (db', (201, u.toJsonFull))

/-- Embedding of `GET /api/users/:id` (`user.routes.ts` lines 114-124):
`findById` (password excluded by `select: false`), 404 when absent, 200 with
the row otherwise. -/
def getUserByIdRoute (db : Db) (id : String) : Resp :=
  match findById db id with
  | none => (404, errorBody "User not found")
  | some u => (200, u.toJson)

/-! Section: Helper lemmas -/

/-- A password-free user record serializes without a `password` field. -/
theorem hasKey_password_toJson_eq_false (u : PublicUser) :
    Json.hasKey u.toJson "password" = false := by
  simp [PublicUser.toJson, Json.hasKey, Json.fieldsHaveKey]

/-- The structured `{ errors: [...] }` body carries no `password` field
(each entry's `path` holds the field name as a value, not as a key). -/
theorem hasKey_password_errorsBody_eq_false (paths : List String) :
    Json.hasKey (errorsBody paths) "password" = false := by
  simp only [errorsBody, Json.hasKey, Json.fieldsHaveKey]
  have harr : ∀ ps : List String,
      Json.listHasKey (ps.map fieldErrorJson) "password" = false := by
    intro ps
    induction ps with
    | nil => simp [Json.listHasKey]
    | cons p ps ih =>
      simp [Json.listHasKey, fieldErrorJson, Json.hasKey, Json.fieldsHaveKey, ih]
  simp [harr]

/-- The `{ error: msg }` body carries no `password` field. -/
theorem hasKey_password_errorBody_eq_false (msg : String) :
    Json.hasKey (errorBody msg) "password" = false := by
  simp [errorBody, Json.hasKey, Json.fieldsHaveKey]

/-- A `{ user, token }` body carries no `password` field. -/
theorem hasKey_password_userToken_eq_false (u : PublicUser) (t : String) :
    Json.hasKey (.obj [("user", u.toJson), ("token", .str t)]) "password" = false := by
  simp [Json.hasKey, Json.fieldsHaveKey, PublicUser.toJson]

/-- Every failure of the `auth` middleware is the same 401 response. -/
theorem auth_error_shape (secret : String) (now : Nat) (h : Header) (r : Resp)
    (he : auth secret now h = .error r) : r = (401, pleaseAuthJson) := by
  cases h with
  | absent => simpa [auth] using he.symm
  | malformed raw => simpa [auth] using he.symm
  | token t =>
    by_cases hv : jwtVerify secret now t = none
    · rw [auth, hv] at he
      exact (Except.error.injEq .. ▸ he :).symm
    · obtain ⟨uid, huid⟩ := Option.ne_none_iff_exists'.mp hv
      rw [auth, huid] at he
      cases he

/-- Inserting a row whose email no existing row shares makes that row the
result of a subsequent `findByEmail` for it. -/
theorem findByEmail_append_fresh (db : Db) (b : CreateBody) (pw : StoredPw)
    (freshId : String) (hdup : violatesUnique db b = false) :
    findByEmail (db ++ [⟨freshId, b.username, b.email, pw⟩]) b.email =
      some ⟨freshId, b.username, b.email, pw⟩ := by
  simp only [violatesUnique, List.any_eq_false, Bool.or_eq_true, not_or] at hdup
  have hnone : db.find? (fun u => u.email == b.email) = none := by
    rw [List.find?_eq_none]
    intro u hu
    simpa using (hdup u hu).2
  simp [findByEmail, List.find?_append, hnone, List.find?]

/-- An empty register-validation error list means every validator passed. -/
theorem registerValidation_passes (b : CreateBody)
    (hv : registerValidationErrors b = []) :
    b.username ≠ "" ∧ isEmail b.email = true ∧ 6 ≤ b.password.length := by
  by_cases h1 : b.username == ""
  · simp [registerValidationErrors, h1] at hv
  · by_cases h2 : isEmail b.email
    · by_cases h3 : b.password.length < 6
      · simp [registerValidationErrors, h1, h2, h3] at hv
      · exact ⟨by simpa using h1, h2, by omega⟩
    · simp [registerValidationErrors, h1, h2] at hv

/-! Section: Claim theorems -/

/-- Claim C7: For every request to a protected route: if the bearer token is
absent or fails verification, the `auth` middleware responds 401 and the
handler is never invoked (the route's outcome is the middleware's fixed 401
response, whatever the handler); if verification succeeds, the decoded user
id is attached and control continues to the handler. -/
theorem c7_auth_middleware_gate (secret : String) (now : Nat) (h : Header) :
    (∀ uid, auth secret now h = .ok uid →
      ∀ f : String → Resp, protectedRoute secret now h f = f uid) ∧
    (∀ r, auth secret now h = .error r →
      ∀ f : String → Resp, protectedRoute secret now h f = (401, pleaseAuthJson)) := by
  constructor
  · intro uid hok f
    simp [protectedRoute, hok]
  · intro r herr f
    have := auth_error_shape secret now h r herr
    simp [protectedRoute, herr, this]

/-- Witness for C7: with no Authorization header the route answers the fixed
401 body and ignores the handler; with a fresh valid token the handler runs
on the decoded id. -/
theorem c7_auth_middleware_gate_witness :
    protectedRoute "k" 0 Header.absent (fun _ => (200, Json.str "reached")) =
      (401, pleaseAuthJson) ∧
    protectedRoute "k" 0 (Header.token (jwtSign "k" "u1" 0))
      (fun i => (200, Json.str i)) = (200, Json.str "u1") :=
  ⟨(c7_auth_middleware_gate "k" 0 Header.absent).2 (401, pleaseAuthJson) rfl _,
   (c7_auth_middleware_gate "k" 0 (Header.token (jwtSign "k" "u1" 0))).1 "u1" rfl _⟩

/-- Claim C9: For every stored user, `findById` and `findAll` return records
that exclude the password column (their serialization has no `password`
field), while `findByEmail` returns the full stored record, password hash
included. -/
theorem c9_store_reads (db : Db) :
    (∀ id u, findById db id = some u → Json.hasKey u.toJson "password" = false) ∧
    (∀ u ∈ findAll db, Json.hasKey u.toJson "password" = false) ∧
    (∀ e u, findByEmail db e = some u → u ∈ db ∧ u.email = e) := by
  refine ⟨fun id u _ => hasKey_password_toJson_eq_false u,
          fun u _ => hasKey_password_toJson_eq_false u,
          fun e u hfind => ⟨List.mem_of_find?_eq_some hfind, ?_⟩⟩
  have := List.find?_some hfind
  simpa using this

/-- Witness for C9 on a one-row table. -/
theorem c9_store_reads_witness :
    Json.hasKey ((User.toPublic ⟨"1", "alice", "a@x.com", .digest 3 "pw"⟩).toJson)
      "password" = false ∧
    ((⟨"1", "alice", "a@x.com", .digest 3 "pw"⟩ : User) ∈
        ([⟨"1", "alice", "a@x.com", .digest 3 "pw"⟩] : Db) ∧
      (⟨"1", "alice", "a@x.com", .digest 3 "pw"⟩ : User).email = "a@x.com") :=
  ⟨(c9_store_reads [⟨"1", "alice", "a@x.com", .digest 3 "pw"⟩]).1 "1"
      (User.toPublic ⟨"1", "alice", "a@x.com", .digest 3 "pw"⟩) (by decide),
   (c9_store_reads [⟨"1", "alice", "a@x.com", .digest 3 "pw"⟩]).2.2 "a@x.com"
      ⟨"1", "alice", "a@x.com", .digest 3 "pw"⟩ (by decide)⟩

/-- Claim C6: Every registration request whose password is shorter than 6
characters is answered 400 with the structured, non-empty field-error list,
and the user table is unchanged. -/
theorem c6_short_password_rejected (secret : String) (now salt : Nat)
    (freshId : String) (db : Db) (b : CreateBody)
    (hshort : b.password.length < 6) :
    registerRoute secret now salt freshId db b =
      (db, (400, errorsBody (registerValidationErrors b))) ∧
    registerValidationErrors b ≠ [] := by
  have hne : registerValidationErrors b ≠ [] := by
    simp [registerValidationErrors, hshort, List.append_eq_nil]
  exact ⟨by simp [registerRoute, hne], hne⟩

/-- Witness for C6: a 3-character password is rejected with the password
field error and the table stays empty. -/
theorem c6_short_password_rejected_witness :
    registerRoute "k" 0 7 "id1" [] ⟨"alice", "a@x.com", "pw1"⟩ =
      ([], (400, errorsBody (registerValidationErrors ⟨"alice", "a@x.com", "pw1"⟩))) ∧
    registerValidationErrors ⟨"alice", "a@x.com", "pw1"⟩ ≠ [] :=
  c6_short_password_rejected "k" 0 7 "id1" [] ⟨"alice", "a@x.com", "pw1"⟩ (by decide)

/-- Claim C3: A login with an unregistered email and a login with a wrong
password for a registered email produce identical responses: both 401 with
the same generic body, so a caller cannot tell no-such-user from
wrong-password. -/
theorem c3_login_indistinguishable (secret : String) (now : Nat) (db : Db)
    (e1 p1 e2 p2 : String) (u : User)
    (he1 : isEmail e1 = true) (he2 : isEmail e2 = true)
    (h1 : findByEmail db e1 = none)
    (h2 : findByEmail db e2 = some u)
    (hp : bcompare p2 u.password = false) :
    tokenRoute secret now db e1 p1 = (401, errorBody "Invalid login credentials") ∧
    tokenRoute secret now db e2 p2 = (401, errorBody "Invalid login credentials") ∧
    tokenRoute secret now db e1 p1 = tokenRoute secret now db e2 p2 := by
  have t1 : tokenRoute secret now db e1 p1 = (401, errorBody "Invalid login credentials") := by
    simp [tokenRoute, tokenValidationErrors, he1, AuthService.login, h1]
  have t2 : tokenRoute secret now db e2 p2 = (401, errorBody "Invalid login credentials") := by
    simp [tokenRoute, tokenValidationErrors, he2, AuthService.login, h2, hp]
  exact ⟨t1, t2, t1.trans t2.symm⟩

/-- Witness for C3: against a one-user table, an unknown email and a wrong
password for the known email are answered identically. -/
theorem c3_login_indistinguishable_witness :
    tokenRoute "k" 0 [⟨"1", "bob", "b@x.com", bhash "goodpw6" 5⟩] "a@x.com" "whatever" =
      (401, errorBody "Invalid login credentials") ∧
    tokenRoute "k" 0 [⟨"1", "bob", "b@x.com", bhash "goodpw6" 5⟩] "b@x.com" "wrongpw" =
      (401, errorBody "Invalid login credentials") ∧
    tokenRoute "k" 0 [⟨"1", "bob", "b@x.com", bhash "goodpw6" 5⟩] "a@x.com" "whatever" =
      tokenRoute "k" 0 [⟨"1", "bob", "b@x.com", bhash "goodpw6" 5⟩] "b@x.com" "wrongpw" :=
  c3_login_indistinguishable "k" 0 [⟨"1", "bob", "b@x.com", bhash "goodpw6" 5⟩]
    "a@x.com" "whatever" "b@x.com" "wrongpw" ⟨"1", "bob", "b@x.com", bhash "goodpw6" 5⟩
    (by decide) (by decide) (by decide) (by decide) (by decide)

/-- Claim C4: A token issued for user id `U`, presented as the bearer token on
the protected login route, verifies within its validity window and resolves
to `U`'s own record; any token whose signature does not match the server
secret is rejected with 401. -/
theorem c4_token_roundtrip_and_tamper (secret uid : String) (now now2 : Nat)
    (db : Db) (r : PublicUser) (hexp : now2 < now + 86400)
    (hfind : findByIdDup db uid = some r) :
    (authLoginRoute secret now2 (.token (jwtSign secret uid now)) db = (200, r.toJson) ∧
      r.id = uid) ∧
    (∀ t : Token, t.sig ≠ mac secret t.sub t.exp →
      ∀ (now3 : Nat) (db2 : Db),
        authLoginRoute secret now3 (.token t) db2 = (401, pleaseAuthJson)) := by
  constructor
  · have hverify : jwtVerify secret now2 (jwtSign secret uid now) = some uid := by
      simp [jwtVerify, jwtSign, hexp]
    refine ⟨by simp [authLoginRoute, protectedRoute, auth, hverify, authLoginHandler, hfind], ?_⟩
    obtain ⟨w, hw, hwr⟩ := Option.map_eq_some'.mp hfind
    have hid : w.id = uid := by simpa using List.find?_some hw
    rw [← hwr, User.toPublic, hid]
  · intro t hsig now3 db2
    have hverify : jwtVerify secret now3 t = none := by
      simp [jwtVerify, hsig]
    simp [authLoginRoute, protectedRoute, auth, hverify]

/-- Witness for C4: a fresh token for user `u1` returns `u1`'s record; the
same token with a corrupted signature is answered 401. -/
theorem c4_token_roundtrip_and_tamper_witness :
    (authLoginRoute "k" 5 (.token (jwtSign "k" "u1" 0))
        [⟨"u1", "alice", "a@x.com", .digest 3 "pw"⟩] =
      (200, (⟨"u1", "alice", "a@x.com"⟩ : PublicUser).toJson)) ∧
    authLoginRoute "k" 5 (.token ⟨"u1", 86400, "bad"⟩)
        [⟨"u1", "alice", "a@x.com", .digest 3 "pw"⟩] = (401, pleaseAuthJson) :=
  ⟨((c4_token_roundtrip_and_tamper "k" "u1" 0 5
      [⟨"u1", "alice", "a@x.com", .digest 3 "pw"⟩] ⟨"u1", "alice", "a@x.com"⟩
      (by decide) (by decide)).1).1,
   (c4_token_roundtrip_and_tamper "k" "u1" 0 5
      [⟨"u1", "alice", "a@x.com", .digest 3 "pw"⟩] ⟨"u1", "alice", "a@x.com"⟩
      (by decide) (by decide)).2 ⟨"u1", 86400, "bad"⟩ (by decide) 5
      [⟨"u1", "alice", "a@x.com", .digest 3 "pw"⟩]⟩

/-- Claim C5: For every registration input that passes validation and hits no
uniqueness conflict, `register` answers 201 with a user object whose
serialization contains no password field, and a subsequent login with the
same email and password succeeds with 200, a user and a token (rather than
`Invalid login credentials`). -/
theorem c5_register_then_login (secret : String) (now salt now2 : Nat)
    (freshId : String) (db : Db) (b : CreateBody)
    (hv : registerValidationErrors b = [])
    (hdup : violatesUnique db b = false) :
    registerRoute secret now salt freshId db b =
      (db ++ [⟨freshId, b.username, b.email, bhash b.password salt⟩],
       (201, Json.obj
          [("user", (PublicUser.mk freshId b.username b.email).toJson),
           ("token", .str (jwtSign secret freshId now).render)])) ∧
    Json.hasKey (Json.obj
        [("user", (PublicUser.mk freshId b.username b.email).toJson),
         ("token", .str (jwtSign secret freshId now).render)]) "password" = false ∧
    tokenRoute secret now2 (db ++ [⟨freshId, b.username, b.email, bhash b.password salt⟩])
        b.email b.password =
      (200, Json.obj
        [("user", (PublicUser.mk freshId b.username b.email).toJson),
         ("token", .str (jwtSign secret freshId now2).render)]) := by
  obtain ⟨hun, hem, hlen⟩ := registerValidation_passes b hv
  refine ⟨?_, hasKey_password_userToken_eq_false _ _, ?_⟩
  · simp [registerRoute, hv, AuthService.register, repoCreate, hdup, User.toPublic]
  · have hfindNew := findByEmail_append_fresh db b (bhash b.password salt) freshId hdup
    simp only [bhash] at hfindNew
    simp [tokenRoute, tokenValidationErrors, hem, AuthService.login, hfindNew,
      bcompare, bhash, User.toPublic]

/-- Witness for C5: registering alice and logging in with her credentials. -/
theorem c5_register_then_login_witness :
    registerRoute "k" 0 7 "id1" [] ⟨"alice", "a@x.com", "secret1"⟩ =
      ([⟨"id1", "alice", "a@x.com", bhash "secret1" 7⟩],
       (201, Json.obj
          [("user", (PublicUser.mk "id1" "alice" "a@x.com").toJson),
           ("token", .str (jwtSign "k" "id1" 0).render)])) ∧
    Json.hasKey (Json.obj
        [("user", (PublicUser.mk "id1" "alice" "a@x.com").toJson),
         ("token", .str (jwtSign "k" "id1" 0).render)]) "password" = false ∧
    tokenRoute "k" 9 [⟨"id1", "alice", "a@x.com", bhash "secret1" 7⟩]
        "a@x.com" "secret1" =
      (200, Json.obj
        [("user", (PublicUser.mk "id1" "alice" "a@x.com").toJson),
         ("token", .str (jwtSign "k" "id1" 9).render)]) :=
  c5_register_then_login "k" 0 7 9 "id1" [] ⟨"alice", "a@x.com", "secret1"⟩
    (by decide) (by decide)

/-- Claim C10: `POST /api/users` persists the submitted password exactly as
sent — no hashing happens on this path — so a subsequent login through
`POST /api/auth/token` with that email and the very same password fails
credential verification with 401. -/
theorem c10_create_unhashed_breaks_login (secret : String) (now : Nat)
    (freshId : String) (db : Db) (b : CreateBody)
    (hdup : violatesUnique db b = false) (hem : isEmail b.email = true) :
    createUserRoute db b freshId =
      (db ++ [⟨freshId, b.username, b.email, .raw b.password⟩],
       (201, (⟨freshId, b.username, b.email, .raw b.password⟩ : User).toJsonFull)) ∧
    (StoredPw.raw b.password).render = b.password ∧
    tokenRoute secret now (db ++ [⟨freshId, b.username, b.email, .raw b.password⟩])
        b.email b.password =
      (401, errorBody "Invalid login credentials") := by
  refine ⟨by simp [createUserRoute, repoCreate, hdup], rfl, ?_⟩
  have hfindNew := findByEmail_append_fresh db b (.raw b.password) freshId hdup
  simp [tokenRoute, tokenValidationErrors, hem, AuthService.login, hfindNew, bcompare]

/-- Witness for C10: creating bob through `POST /api/users` stores his
password verbatim and his login is then rejected. -/
theorem c10_create_unhashed_breaks_login_witness :
    createUserRoute [] ⟨"bob", "b@x.com", "hunter22"⟩ "id9" =
      ([⟨"id9", "bob", "b@x.com", .raw "hunter22"⟩],
       (201, (⟨"id9", "bob", "b@x.com", .raw "hunter22"⟩ : User).toJsonFull)) ∧
    (StoredPw.raw "hunter22").render = "hunter22" ∧
    tokenRoute "k" 0 [⟨"id9", "bob", "b@x.com", .raw "hunter22"⟩] "b@x.com" "hunter22" =
      (401, errorBody "Invalid login credentials") :=
  c10_create_unhashed_breaks_login "k" 0 "id9" [] ⟨"bob", "b@x.com", "hunter22"⟩
    (by decide) (by decide)

/-- Claim C1, counterexample: The claim that no execution signs or verifies
with a fallback secret in place of the configured one fails at the explicit
environment that sets `JWT_SECRET` to the empty string: envalid's `str()`
accepts a defined empty value, so startup validation passes, yet
JavaScript's `||` treats the empty string as falsy and both
`AuthService.generateToken` and the `auth` middleware silently use the
hardcoded `'your-secret-key'` instead of the configured secret. -/
theorem c1_counterexample :
    validateEnvOk ⟨some "production", none, some "", none, none,
        some "u", some "p", some "d"⟩ = true ∧
    (⟨some "production", none, some "", none, none,
        some "u", some "p", some "d"⟩ : Env).jwtSecret = some "" ∧
    appSecret ⟨some "production", none, some "", none, none,
        some "u", some "p", some "d"⟩ = some "your-secret-key" ∧
    appSecret ⟨some "production", none, some "", none, none,
        some "u", some "p", some "d"⟩ ≠ some "" := by
  refine ⟨rfl, rfl, rfl, ?_⟩
  decide

/-- Claim C1, amended: If `JWT_SECRET` is undefined, startup validation fails
and no execution reaches signing or verification; whenever it is set to a
non-empty string, signing and verification use exactly the configured
secret; but a `JWT_SECRET` set to the empty string passes startup
validation while signing silently falls back to `'your-secret-key'`. -/
theorem c1_amended_secret_handling :
    (∀ e : Env, e.jwtSecret = none → validateEnvOk e = false ∧ appSecret e = none) ∧
    (∀ (e : Env) (s : String), e.jwtSecret = some s → s ≠ "" → effectiveSecret e = s) ∧
    (∀ e : Env, e.jwtSecret = some "" → effectiveSecret e = "your-secret-key") := by
  refine ⟨fun e h => ?_, fun e s h hs => ?_, fun e h => ?_⟩
  · have hv : validateEnvOk e = false := by
      simp [validateEnvOk, h]
    exact ⟨hv, by simp [appSecret, hv]⟩
  · simp [effectiveSecret, h, hs]
  · simp [effectiveSecret, h]

/-- Witness for the amended C1 at explicit environments: an undefined secret
stops startup; a non-empty secret is used verbatim; an empty secret falls
back. -/
theorem c1_amended_secret_handling_witness :
    (validateEnvOk ⟨some "test", none, none, none, none,
        some "u", some "p", some "d"⟩ = false ∧
      appSecret ⟨some "test", none, none, none, none,
        some "u", some "p", some "d"⟩ = none) ∧
    effectiveSecret ⟨some "test", none, some "real-secret", none, none,
        some "u", some "p", some "d"⟩ = "real-secret" ∧
    effectiveSecret ⟨some "test", none, some "", none, none,
        some "u", some "p", some "d"⟩ = "your-secret-key" :=
  ⟨c1_amended_secret_handling.1 _ rfl,
   c1_amended_secret_handling.2.1 _ "real-secret" rfl (by decide),
   c1_amended_secret_handling.2.2 _ rfl⟩

/-- Claim C2, counterexample: Not every handler strips password fields: at the
explicit request `POST /api/users` with body
`{username: alice, email: a@x.com, password: plainpw1}` against an empty
table, the handler answers 201 and the response body contains a `password`
field (`res.json(user)` serializes the saved entity, password included). -/
theorem c2_counterexample :
    (createUserRoute [] ⟨"alice", "a@x.com", "plainpw1"⟩ "id1").2.1 = 201 ∧
    Json.hasKey (createUserRoute [] ⟨"alice", "a@x.com", "plainpw1"⟩ "id1").2.2
      "password" = true := by
  constructor
  · rfl
  · simp [createUserRoute, repoCreate, violatesUnique, User.toJsonFull,
      Json.hasKey, Json.fieldsHaveKey]

/-- Claim C2, amended: Every route handler except `POST /api/users` never
includes a `password` field anywhere in its JSON response; `POST /api/users`
echoes the created record, password field included. -/
theorem c2_amended_no_password_leak :
    (∀ secret now salt freshId db b,
      Json.hasKey (registerRoute secret now salt freshId db b).2.2 "password" = false) ∧
    (∀ secret now db e p,
      Json.hasKey (tokenRoute secret now db e p).2 "password" = false) ∧
    (∀ secret now h db,
      Json.hasKey (authLoginRoute secret now h db).2 "password" = false) ∧
    (∀ secret now h db,
      Json.hasKey (usersLoginRoute secret now h db).2 "password" = false) ∧
    (∀ db id, Json.hasKey (getUserByIdRoute db id).2 "password" = false) := by
  have hAuth : ∀ secret now h (o : String → StoreOutcome)
      (hand : StoreOutcome → Resp),
      (∀ s, Json.hasKey (hand (o s)).2 "password" = false) →
      Json.hasKey (protectedRoute secret now h (fun uid => hand (o uid))).2
        "password" = false := by
    intro secret now h o hand hok
    unfold protectedRoute
    cases hauth : auth secret now h with
    | error r =>
      rw [auth_error_shape secret now h r hauth]
      simp [pleaseAuthJson, Json.hasKey, Json.fieldsHaveKey]
    | ok uid => exact hok uid
  have hHand : ∀ name (o : StoreOutcome),
      Json.hasKey ((match o with
        | .err m => ((name : Nat), errorBody m)
        | .ok none => (404, errorBody "User not found")
        | .ok (some u) => (200, u.toJson)) : Resp).2 "password" = false := by
    intro name o
    match o with
    | .err m => exact hasKey_password_errorBody_eq_false m
    | .ok none => exact hasKey_password_errorBody_eq_false _
    | .ok (some u) => exact hasKey_password_toJson_eq_false u
  refine ⟨?_, ?_, ?_, ?_, ?_⟩
  · intro secret now salt freshId db b
    unfold registerRoute
    dsimp only
    split
    · exact hasKey_password_errorsBody_eq_false _
    · match AuthService.register secret now salt freshId db b with
      | .error m => exact hasKey_password_errorBody_eq_false m
      | .ok (db', u, t) => exact hasKey_password_userToken_eq_false u _
  · intro secret now db e p
    unfold tokenRoute
    dsimp only
    split
    · exact hasKey_password_errorsBody_eq_false _
    · match AuthService.login secret now db e p with
      | .error m => exact hasKey_password_errorBody_eq_false m
      | .ok (u, t) => exact hasKey_password_userToken_eq_false u _
  · intro secret now h db
    exact hAuth secret now h (fun uid => .ok (findByIdDup db uid)) authLoginHandler
      (fun s => hHand 500 _)
  · intro secret now h db
    exact hAuth secret now h (fun uid => .ok (findById db uid)) usersLoginHandler
      (fun s => hHand 400 _)
  · intro db id
    unfold getUserByIdRoute
    cases findById db id with
    | none => exact hasKey_password_errorBody_eq_false _
    | some u => exact hasKey_password_toJson_eq_false u

/-- Claim C8, counterexample: The two protected login handlers are not
observationally equivalent on every store outcome: when the store call
rejects with `boom`, `GET /api/auth/login` answers 500 while
`GET /api/users/login` answers 400, so the responses differ. -/
theorem c8_counterexample :
    (authLoginHandler (.err "boom")).1 = 500 ∧
    (usersLoginHandler (.err "boom")).1 = 400 ∧
    authLoginHandler (.err "boom") ≠ usersLoginHandler (.err "boom") := by
  refine ⟨rfl, rfl, fun h => ?_⟩
  have h1 := congrArg Prod.fst h
  simp [authLoginHandler, usersLoginHandler] at h1

/-- Claim C8, amended: The two protected login handlers agree on every outcome
in which the store call resolves (user found or user absent), the two
repository implementations compute the same lookup, and hence the two full
routes agree on every request; they differ only when the store call
rejects, where the catch branches answer 500 versus 400. -/
theorem c8_amended_equiv_on_resolve :
    (∀ o : Option PublicUser, authLoginHandler (.ok o) = usersLoginHandler (.ok o)) ∧
    (∀ db id, findByIdDup db id = findById db id) ∧
    (∀ secret now h db, authLoginRoute secret now h db = usersLoginRoute secret now h db) ∧
    (∀ m, (authLoginHandler (.err m)).1 = 500 ∧ (usersLoginHandler (.err m)).1 = 400) := by
  refine ⟨fun o => by cases o <;> rfl, fun db id => rfl, fun secret now h db => ?_,
    fun m => ⟨rfl, rfl⟩⟩
  unfold authLoginRoute usersLoginRoute protectedRoute
  cases auth secret now h with
  | error r => rfl
  | ok uid =>
    show authLoginHandler (.ok (findByIdDup db uid)) =
      usersLoginHandler (.ok (findById db uid))
    have he : findByIdDup db uid = findById db uid := rfl
    rw [he]
    cases findById db uid <;> rfl

end Yaver
